import Mathlib

/-!
# Verification of the legacy telemetry generator
Shallow embedding of `src/services/pascal-legacy/legacy.py`: a periodic job
that generates one random telemetry reading per iteration, writes it to a
one-row CSV file and inserts it into a PostgreSQL table.  External effects
(clock, randomness, filesystem, database) are modelled by an `Oracle` that
fixes the result of every effectful call of one iteration; each function is
translated into a pure function producing the list of observable events and
the exception it propagates, mirroring the Python control flow line by line.
-/

namespace Legacy

/-- A wall-clock instant as produced by `datetime.now()`. -/
structure DateTime where
  year : Nat
  month : Nat
  day : Nat
  hour : Nat
  minute : Nat
  second : Nat
deriving DecidableEq, Repr

/-- Decimal digit characters of a natural number, most significant first
(empty for 0); the rendering underlying `strftime`. -/
def natDigits (n : Nat) : List Char :=
  if h : n = 0 then []
  else natDigits (n / 10) ++ [Nat.digitChar (n % 10)]
decreasing_by exact Nat.div_lt_self (Nat.pos_of_ne_zero h) (by omega)

/-- Decimal string of a natural number. -/
def natStr (n : Nat) : String :=
  if n = 0 then "0" else ⟨natDigits n⟩

/-- Zero-padded two-digit field (`%m`, `%d`, `%H`, `%M`, `%S`). -/
def pad2 (n : Nat) : String :=
  if n < 10 then "0" ++ natStr n else natStr n

/-- `strftime('%Y%m%d_%H%M%S')`: the compact timestamp used in filenames. -/
def fmtCompact (t : DateTime) : String :=
  natStr t.year ++ pad2 t.month ++ pad2 t.day ++ "_" ++
    pad2 t.hour ++ pad2 t.minute ++ pad2 t.second

/-- `strftime('%Y-%m-%d %H:%M:%S')`: the human-readable timestamp stored in
the `recorded_at` field. -/
def fmtHuman (t : DateTime) : String :=
  natStr t.year ++ "-" ++ pad2 t.month ++ "-" ++ pad2 t.day ++ " " ++
    pad2 t.hour ++ ":" ++ pad2 t.minute ++ ":" ++ pad2 t.second

/-- Python's `round` ties-to-even rounding of a rational to an integer. -/
def rhe (x : ℚ) : ℤ :=
  let f := ⌊x⌋
  let r := x - f
  if r < 1/2 then f
  else if 1/2 < r then f + 1
  else if f % 2 = 0 then f else f + 1

/-- `round(x, 2)`: round to two decimal places. -/
def round2 (x : ℚ) : ℚ := (rhe (x * 100) : ℚ) / 100

/-- `random.uniform(a, b)` evaluated at a random source value `u ∈ [0, 1]`. -/
def uniform (a b u : ℚ) : ℚ := a + (b - a) * u

/-- The telemetry reading built by `generate_csv_row` (before `source_file`
is attached). -/
structure Reading where
  recorded_at : String
  voltage : ℚ
  temp : ℚ
deriving DecidableEq, Repr

/-- `generate_csv_row`: one row of telemetry data, from the current clock
reading and the two draws of the random source. -/
def generate_csv_row (now : DateTime) (uV uT : ℚ) : Reading :=
  { recorded_at := fmtHuman now
  , voltage := round2 (uniform (32/10) (126/10) uV)
  , temp := round2 (uniform (-50) 80 uT) }

/-- `str` of a float known to carry at most two decimal places, as Python
prints it (trailing fractional zeros dropped, at least one digit kept). -/
def fmt2 (q : ℚ) : String :=
  let n : ℤ := rhe (q * 100)
  let sign := if n < 0 then "-" else ""
  let m := n.natAbs
  let ip := m / 100
  let fp := m % 100
  let frac :=
    if fp = 0 then "0"
    else if fp % 10 = 0 then natStr (fp / 10)
    else (if fp < 10 then "0" else "") ++ natStr fp
  sign ++ natStr ip ++ "." ++ frac

/-- The process environment, as consulted by `os.environ.get`. -/
def Env : Type := List (String × String)

/-- `get_env`: read a variable with a default value. -/
def get_env (env : Env) (name default : String) : String :=
  (List.lookup name env).getD default

/-- The configuration block read at the top of `generate_and_insert`. -/
structure Config where
  csv_out_dir : String
  pg_host : String
  pg_port : String
  pg_user : String
  pg_password : String
  pg_database : String
deriving DecidableEq, Repr

/-- The six `get_env` calls of `generate_and_insert`, with their defaults. -/
def readConfig (env : Env) : Config :=
  { csv_out_dir := get_env env "CSV_OUT_DIR" "/data/csv"
  , pg_host := get_env env "PGHOST" "db"
  , pg_port := get_env env "PGPORT" "5432"
  , pg_user := get_env env "PGUSER" "monouser"
  , pg_password := get_env env "PGPASSWORD" "monopass"
  , pg_database := get_env env "PGDATABASE" "monolith" }

/-- A Python exception, distinguishing `psycopg2.Error` (caught by the first
`except` of the database block) from every other `Exception`. -/
inductive Exn where
  | pgError (msg : String)
  | generic (msg : String)
deriving DecidableEq, Repr

/-- The message carried by the exception (`str(e)`). -/
def Exn.msg : Exn → String
  | .pgError m => m
  | .generic m => m

/-- The line the database `except` clauses print for an exception. -/
def Exn.dbLog : Exn → String
  | .pgError m => "✗ Database error: " ++ m
  | .generic m => "✗ Unexpected error: " ++ m

/-- One observable step of an iteration: console output and side effects on
the filesystem and the database.  A CSV file's content is the list of its
lines, each line the list of its comma-separated fields. -/
inductive Event where
  | mkdirAttempt (dir : String)
  | fileWrite (path : String) (content : List (List String))
  | stdout (msg : String)
  | stderr (msg : String)
  | dbConnect (host port user password database : String)
  | dbExec (query : String) (recorded_at : String) (voltage temp : ℚ)
      (source_file : String)
  | dbCommit
  | dbClose
  | sleep (seconds : ℤ)
deriving DecidableEq, Repr

/-- Outcomes of the effectful calls of one iteration: the successive
`datetime.now()` readings, the two `random.uniform` source values, and for
each fallible step either success (`none`) or the exception it raises. -/
structure Oracle where
  clock : Nat → DateTime
  uV : ℚ
  uT : ℚ
  mkdirRes : Option String
  writeRes : Option String
  connectRes : Option Exn
  execRes : Option Exn
  commitRes : Option Exn

/-- The parameterized INSERT statement (whitespace normalized). -/
def insertQuery : String :=
  "INSERT INTO telemetry_legacy (recorded_at, voltage, temp, source_file) VALUES (%s, %s, %s, %s)"

/-- `generate_and_insert`, translated clause by clause: read the six
configuration variables, attempt `mkdir` (outside any `try`), build the
filename from one clock reading, build the reading from a second, attempt
the CSV write (early `return` on failure), then connect / execute / commit /
close, each database failure logged and swallowed.  Returns the event trace
and the exception that propagates out of the call, if any. -/
def generate_and_insert (env : Env) (o : Oracle) : List Event × Option Exn :=
  let cfg := readConfig env
  match o.mkdirRes with
  | some e => ([.mkdirAttempt cfg.csv_out_dir], some (.generic e))
  | none =>
    let timestamp := fmtCompact (o.clock 0)
    let filename := "telemetry_" ++ timestamp ++ ".csv"
    let filepath := cfg.csv_out_dir ++ "/" ++ filename
    let data := generate_csv_row (o.clock 1) o.uV o.uT
    let tr0 : List Event := [.mkdirAttempt cfg.csv_out_dir]
    match o.writeRes with
    | some e => (tr0 ++ [.stderr ("✗ Error writing CSV: " ++ e)], none)
    | none =>
      let content := [["recorded_at", "voltage", "temp", "source_file"],
        [data.recorded_at, fmt2 data.voltage, fmt2 data.temp, filename]]
      let tr1 := tr0 ++ [.fileWrite filepath content,
        .stdout ("✓ CSV file created: " ++ filepath)]
      match o.connectRes with
      | some ex => (tr1 ++ [.stderr ex.dbLog], none)
      | none =>
        let tr2 := tr1 ++ [.dbConnect cfg.pg_host cfg.pg_port cfg.pg_user
          cfg.pg_password cfg.pg_database]
        match o.execRes with
        | some ex => (tr2 ++ [.stderr ex.dbLog], none)
        | none =>
          let tr3 := tr2 ++ [.dbExec insertQuery data.recorded_at
            data.voltage data.temp filename]
          match o.commitRes with
          | some ex => (tr3 ++ [.stderr ex.dbLog], none)
          | none =>
            (tr3 ++ [.dbCommit, .dbClose,
              .stdout ("✓ Data inserted into database: voltage=" ++
                fmt2 data.voltage ++ "V, temp=" ++ fmt2 data.temp ++ "°C")],
              none)

/-- Python `int(s)` on a stripped string: optional sign followed by at least
one decimal digit; `none` models the `ValueError` it otherwise raises. -/
def parseIntPy (s : String) : Option ℤ :=
  let t := ((s.data.dropWhile Char.isWhitespace).reverse.dropWhile
    Char.isWhitespace).reverse
  let (sgn, ds) : ℤ × List Char :=
    match t with
    | '-' :: rest => (-1, rest)
    | '+' :: rest => (1, rest)
    | rest => (1, rest)
  if ds ≠ [] ∧ ds.all Char.isDigit then
    some (sgn * (ds.foldl (fun acc c => acc * 10 + (c.toNat - '0'.toNat)) 0 : ℕ))
  else none

/-- The body of `main`'s `while True`: call `generate_and_insert`, catch and
log any `Exception` it raises, then sleep for the period parsed at startup.
Returns the trace and the exception escaping the iteration (always `none`:
the handler catches everything the model can raise). -/
def loopIter (period : ℤ) (env : Env) (o : Oracle) : List Event × Option Exn :=
  let (tr, exn) := generate_and_insert env o
  let tr2 := match exn with
    | some e => tr ++ [.stderr ("✗ Legacy error: " ++ e.msg)]
    | none => tr
  (tr2 ++ [.sleep period], none)

/-- `main`'s startup: parse `GEN_PERIOD_SEC` once, before the loop.  `none`
models the uncaught `ValueError` killing the process at startup. -/
def mainStartup (env0 : Env) : Option ℤ :=
  parseIntPy (get_env env0 "GEN_PERIOD_SEC" "300")

/-- The trace of the first `n` iterations of `main`: parse the period from
the startup environment (crashing if unparseable), then run the loop body
against each iteration's own environment and oracle. -/
def mainRun (env0 : Env) (envSeq : Nat → Env) (oSeq : Nat → Oracle)
    (n : Nat) : Option (List Event) :=
  match mainStartup env0 with
  | none => none
  | some p =>
    some ((List.range n).flatMap (fun i => (loopIter p (envSeq i) (oSeq i)).1))

/-- The files a trace writes: `(path, content)` of its `fileWrite` events. -/
def filesWritten (tr : List Event) : List (String × List (List String)) :=
  tr.filterMap fun ev =>
    match ev with
    | .fileWrite p c => some (p, c)
    | _ => none

/-- The lines a trace prints to the error stream. -/
def stderrs (tr : List Event) : List String :=
  tr.filterMap fun ev =>
    match ev with
    | .stderr m => some m
    | _ => none

/-- The database interactions of a trace, in order. -/
def dbEvents (tr : List Event) : List Event :=
  tr.filter fun ev =>
    match ev with
    | .dbConnect _ _ _ _ _ => true
    | .dbExec _ _ _ _ _ => true
    | .dbCommit => true
    | .dbClose => true
    | _ => false

/-- The sleep durations of a trace, in order. -/
def sleeps (tr : List Event) : List ℤ :=
  tr.filterMap fun ev =>
    match ev with
    | .sleep s => some s
    | _ => none

/-- A fixed clock instant, for concrete runs. -/
def clk0 : DateTime := ⟨2026, 1, 2, 3, 4, 5⟩

/-- An oracle on which every effect succeeds, for concrete runs. -/
def okOracle : Oracle :=
  { clock := fun _ => clk0, uV := 1/2, uT := 1/2, mkdirRes := none
  , writeRes := none, connectRes := none, execRes := none, commitRes := none }

end Legacy

namespace Legacy

lemma natDigits_zero : natDigits 0 = [] := by
  rw [natDigits]
  simp

lemma natDigits_ne_zero (n : Nat) (h : n ≠ 0) :
    natDigits n = natDigits (n / 10) ++ [Nat.digitChar (n % 10)] := by
  rw [natDigits]
  simp [h]

lemma digitChar_isDigit (k : Nat) (h : k < 10) :
    (Nat.digitChar k).isDigit = true := by
  interval_cases k <;> decide

/-- Every character produced by `natDigits` is a decimal digit. -/
lemma natDigits_all_digit (n : Nat) : ∀ c ∈ natDigits n, c.isDigit = true := by
  induction n using Nat.strong_induction_on with
  | _ n ih =>
    by_cases h : n = 0
    · simp [h, natDigits_zero]
    · rw [natDigits_ne_zero n h]
      intro c hc
      rcases List.mem_append.mp hc with hl | hr
      · exact ih (n / 10) (Nat.div_lt_self (Nat.pos_of_ne_zero h) (by omega)) c hl
      · rw [List.mem_singleton.mp hr]
        exact digitChar_isDigit (n % 10) (Nat.mod_lt n (by omega))

lemma natDigits_len1 (n : Nat) (h1 : 1 ≤ n) (h2 : n < 10) :
    (natDigits n).length = 1 := by
  rw [natDigits_ne_zero n (by omega)]
  rw [show n / 10 = 0 by omega, natDigits_zero]
  simp

lemma natDigits_len4 (n : Nat) (h1 : 1000 ≤ n) (h2 : n < 10000) :
    (natDigits n).length = 4 := by
  rw [natDigits_ne_zero n (by omega)]
  rw [natDigits_ne_zero (n / 10) (by omega)]
  rw [natDigits_ne_zero (n / 10 / 10) (by omega)]
  have e3 : n / 10 / 10 / 10 = n / 1000 := by omega
  rw [e3]
  simp [natDigits_len1 (n / 1000) (by omega) (by omega)]

/-- The characters of `natStr` are decimal digits. -/
lemma natStr_all_digit (n : Nat) : ∀ c ∈ (natStr n).data, c.isDigit = true := by
  unfold natStr
  split
  · intro c hc
    simp only [show ("0" : String).data = ['0'] from rfl] at hc
    rw [List.mem_singleton.mp hc]
    rfl
  · exact natDigits_all_digit n

lemma natStr_data (n : Nat) (h : n ≠ 0) : (natStr n).data = natDigits n := by
  unfold natStr
  simp [h]

/-- A four-digit year renders to four digit characters. -/
lemma natStr_year (n : Nat) (h1 : 1000 ≤ n) (h2 : n < 10000) :
    (natStr n).data.length = 4 ∧ ∀ c ∈ (natStr n).data, c.isDigit = true := by
  refine ⟨?_, natStr_all_digit n⟩
  rw [natStr_data n (by omega)]
  exact natDigits_len4 n h1 h2

/-- `pad2` of a value below 100 is two digit characters. -/
lemma pad2_spec (n : Nat) (h : n < 100) :
    (pad2 n).data.length = 2 ∧ ∀ c ∈ (pad2 n).data, c.isDigit = true := by
  unfold pad2
  split
  · rename_i hlt
    rw [String.data_append]
    constructor
    · by_cases h0 : n = 0
      · simp [h0, natStr]
      · rw [natStr_data n h0]
        simp [natDigits_len1 n (by omega) hlt]
    · intro c hc
      rcases List.mem_append.mp hc with hl | hr
      · simp only [show ("0" : String).data = ['0'] from rfl] at hl
        rw [List.mem_singleton.mp hl]
        rfl
      · exact natStr_all_digit n c hr
  · rename_i hge
    constructor
    · rw [natStr_data n (by omega)]
      rw [natDigits_ne_zero n (by omega)]
      simp [natDigits_len1 (n / 10) (by omega) (by omega)]
    · exact natStr_all_digit n

/-- The shape `telemetry_<YYYYMMDD_HHMMSS>.csv`: a literal stem, eight
digits, an underscore, six digits, and the `.csv` suffix. -/
def telemetryNamed (s : String) : Prop :=
  ∃ d8 d6 : List Char,
    s.data = ("telemetry_").data ++ d8 ++ '_' :: (d6 ++ (".csv").data) ∧
    d8.length = 8 ∧ d6.length = 6 ∧
    (∀ c ∈ d8, c.isDigit = true) ∧ (∀ c ∈ d6, c.isDigit = true)

/-- A clock instant whose fields lie in the ranges `datetime.now()` can
produce (four-digit year, calendar month/day, 24h clock). -/
def clockOk (t : DateTime) : Prop :=
  1000 ≤ t.year ∧ t.year < 10000 ∧ t.month ≤ 12 ∧ t.day ≤ 31 ∧
  t.hour ≤ 23 ∧ t.minute ≤ 59 ∧ t.second ≤ 59

/-- The compact timestamp of an in-range instant is eight digits, an
underscore, and six digits. -/
lemma fmtCompact_shape (t : DateTime) (h : clockOk t) :
    ∃ d8 d6 : List Char,
      (fmtCompact t).data = d8 ++ '_' :: d6 ∧
      d8.length = 8 ∧ d6.length = 6 ∧
      (∀ c ∈ d8, c.isDigit = true) ∧ (∀ c ∈ d6, c.isDigit = true) := by
  obtain ⟨hy1, hy2, hmo, hd, hh, hmi, hs⟩ := h
  refine ⟨(natStr t.year).data ++ (pad2 t.month).data ++ (pad2 t.day).data,
    (pad2 t.hour).data ++ (pad2 t.minute).data ++ (pad2 t.second).data,
    ?_, ?_, ?_, ?_, ?_⟩
  · unfold fmtCompact
    simp only [String.data_append, show ("_" : String).data = ['_'] from rfl]
    simp
  · have l1 := (natStr_year t.year hy1 hy2).1
    have l2 := (pad2_spec t.month (by omega)).1
    have l3 := (pad2_spec t.day (by omega)).1
    simp [l1, l2, l3]
  · have l4 := (pad2_spec t.hour (by omega)).1
    have l5 := (pad2_spec t.minute (by omega)).1
    have l6 := (pad2_spec t.second (by omega)).1
    simp [l4, l5, l6]
  · intro c hc
    rcases List.mem_append.mp hc with hc | hc
    · rcases List.mem_append.mp hc with hc | hc
      · exact natStr_all_digit t.year c hc
      · exact (pad2_spec t.month (by omega)).2 c hc
    · exact (pad2_spec t.day (by omega)).2 c hc
  · intro c hc
    rcases List.mem_append.mp hc with hc | hc
    · rcases List.mem_append.mp hc with hc | hc
      · exact (pad2_spec t.hour (by omega)).2 c hc
      · exact (pad2_spec t.minute (by omega)).2 c hc
    · exact (pad2_spec t.second (by omega)).2 c hc

/-- The filename built from an in-range instant matches the documented
pattern. -/
lemma telemetryNamed_of_clockOk (t : DateTime) (h : clockOk t) :
    telemetryNamed ("telemetry_" ++ fmtCompact t ++ ".csv") := by
  obtain ⟨d8, d6, hdata, h8, h6, hd8, hd6⟩ := fmtCompact_shape t h
  refine ⟨d8, d6, ?_, h8, h6, hd8, hd6⟩
  simp only [String.data_append, hdata]
  simp

/-- Ties-to-even rounding never drops below the floor. -/
lemma rhe_ge_floor (x : ℚ) : ⌊x⌋ ≤ rhe x := by
  unfold rhe
  dsimp only
  split
  · exact le_refl _
  · split
    · omega
    · split <;> omega

/-- Ties-to-even rounding is bounded below by any integer lower bound. -/
lemma le_rhe (n : ℤ) (x : ℚ) (h : (n : ℚ) ≤ x) : n ≤ rhe x :=
  le_trans (Int.le_floor.mpr h) (rhe_ge_floor x)

/-- Ties-to-even rounding is bounded above by any integer upper bound. -/
lemma rhe_le (n : ℤ) (x : ℚ) (h : x ≤ (n : ℚ)) : rhe x ≤ n := by
  have hfl : ⌊x⌋ ≤ n := by
    have := Int.floor_le_floor (α := ℚ) h
    simpa using this
  unfold rhe
  dsimp only
  split
  · exact hfl
  · rename_i hge
    push_neg at hge
    have hne : ⌊x⌋ ≠ n := by
      intro he
      have hle : x - (⌊x⌋ : ℚ) ≤ 0 := by
        rw [he]
        linarith
      linarith
    split
    · omega
    · split <;> omega

/-- `round2` keeps a value between two bounds that are themselves multiples
of `1/100`. -/
lemma round2_bounds (a b : ℤ) (x : ℚ) (h1 : (a : ℚ)/100 ≤ x)
    (h2 : x ≤ (b : ℚ)/100) : (a : ℚ)/100 ≤ round2 x ∧ round2 x ≤ (b : ℚ)/100 := by
  have ha : (a : ℚ) ≤ x * 100 := by linarith
  have hb : x * 100 ≤ (b : ℚ) := by linarith
  have l1 := le_rhe a (x * 100) ha
  have l2 := rhe_le b (x * 100) hb
  unfold round2
  constructor
  · have : (a : ℚ) ≤ (rhe (x * 100) : ℚ) := by exact_mod_cast l1
    linarith
  · have : ((rhe (x * 100) : ℚ)) ≤ (b : ℚ) := by exact_mod_cast l2
    linarith

/-- `uniform a b` stays inside `[a, b]` when the source value is in
`[0, 1]`. -/
lemma uniform_bounds (a b u : ℚ) (hab : a ≤ b) (h0 : 0 ≤ u) (h1 : u ≤ 1) :
    a ≤ uniform a b u ∧ uniform a b u ≤ b := by
  unfold uniform
  constructor <;> nlinarith

/-- C3: every reading produced by `generate_csv_row` satisfies
`3.2 ≤ voltage ≤ 12.6` and `-50.0 ≤ temp ≤ 80.0`, and both values are
multiples of `1/100`, i.e. carry exactly two decimal places. -/
theorem reading_bounds (now : DateTime) (uV uT : ℚ)
    (hV0 : 0 ≤ uV) (hV1 : uV ≤ 1) (hT0 : 0 ≤ uT) (hT1 : uT ≤ 1) :
    32/10 ≤ (generate_csv_row now uV uT).voltage ∧
    (generate_csv_row now uV uT).voltage ≤ 126/10 ∧
    -50 ≤ (generate_csv_row now uV uT).temp ∧
    (generate_csv_row now uV uT).temp ≤ 80 ∧
    (∃ n : ℤ, (generate_csv_row now uV uT).voltage = (n : ℚ)/100) ∧
    (∃ n : ℤ, (generate_csv_row now uV uT).temp = (n : ℚ)/100) := by
  have hu := uniform_bounds (32/10) (126/10) uV (by norm_num) hV0 hV1
  have ht := uniform_bounds (-50) 80 uT (by norm_num) hT0 hT1
  have hvb := round2_bounds 320 1260 (uniform (32/10) (126/10) uV)
    (by push_cast; linarith [hu.1]) (by push_cast; linarith [hu.2])
  have htb := round2_bounds (-5000) 8000 (uniform (-50) 80 uT)
    (by push_cast; linarith [ht.1]) (by push_cast; linarith [ht.2])
  refine ⟨?_, ?_, ?_, ?_, ⟨rhe (uniform (32/10) (126/10) uV * 100), rfl⟩,
    ⟨rhe (uniform (-50) 80 uT * 100), rfl⟩⟩
  · have := hvb.1
    push_cast at this
    simpa [generate_csv_row] using by linarith
  · have := hvb.2
    push_cast at this
    simpa [generate_csv_row] using by linarith
  · have := htb.1
    push_cast at this
    simpa [generate_csv_row] using by linarith
  · have := htb.2
    push_cast at this
    simpa [generate_csv_row] using by linarith

/-- Witness for C3 at a concrete clock instant and random draws. -/
theorem reading_bounds_witness :
    (0 : ℚ) ≤ 1/2 ∧ (1 : ℚ)/2 ≤ 1 ∧ (0 : ℚ) ≤ 1/4 ∧ (1 : ℚ)/4 ≤ 1 ∧
    32/10 ≤ (generate_csv_row clk0 (1/2) (1/4)).voltage ∧
    (generate_csv_row clk0 (1/2) (1/4)).voltage ≤ 126/10 :=
  ⟨by norm_num, by norm_num, by norm_num, by norm_num,
    (reading_bounds clk0 (1/2) (1/4) (by norm_num) (by norm_num) (by norm_num)
      (by norm_num)).1,
    (reading_bounds clk0 (1/2) (1/4) (by norm_num) (by norm_num) (by norm_num)
      (by norm_num)).2.1⟩

/-- C4: every CSV file the program writes (with the clock in the ranges
`datetime.now()` can produce) lands in the configured output directory under
a name of shape `telemetry_<YYYYMMDD_HHMMSS>.csv`, and its content is the
header `recorded_at,voltage,temp,source_file` followed by exactly one data
row whose `source_file` field is the file's own name. -/
theorem csv_file_shape (env : Env) (o : Oracle) (hc : clockOk (o.clock 0))
    (path : String) (content : List (List String))
    (hmem : Event.fileWrite path content ∈ (generate_and_insert env o).1) :
    ∃ fname r v t,
      path = (readConfig env).csv_out_dir ++ "/" ++ fname ∧
      content = [["recorded_at", "voltage", "temp", "source_file"],
        [r, v, t, fname]] ∧
      telemetryNamed fname := by
  have hpat := telemetryNamed_of_clockOk (o.clock 0) hc
  match h1 : o.mkdirRes with
  | some e => simp [generate_and_insert, h1] at hmem
  | none =>
    match h2 : o.writeRes with
    | some e => simp [generate_and_insert, h1, h2] at hmem
    | none =>
      match h3 : o.connectRes with
      | some ex =>
        simp [generate_and_insert, h1, h2, h3] at hmem
        exact ⟨_, _, _, _, hmem.1, hmem.2, hpat⟩
      | none =>
        match h4 : o.execRes with
        | some ex =>
          simp [generate_and_insert, h1, h2, h3, h4] at hmem
          exact ⟨_, _, _, _, hmem.1, hmem.2, hpat⟩
        | none =>
          match h5 : o.commitRes with
          | some ex =>
            simp [generate_and_insert, h1, h2, h3, h4, h5] at hmem
            exact ⟨_, _, _, _, hmem.1, hmem.2, hpat⟩
          | none =>
            simp [generate_and_insert, h1, h2, h3, h4, h5] at hmem
            exact ⟨_, _, _, _, hmem.1, hmem.2, hpat⟩

/-- Witness for C4 at a concrete environment, oracle and written file. -/
theorem csv_file_shape_witness :
    clockOk (okOracle.clock 0) ∧
    Event.fileWrite
        ((readConfig []).csv_out_dir ++ "/" ++
          ("telemetry_" ++ fmtCompact (okOracle.clock 0) ++ ".csv"))
        [["recorded_at", "voltage", "temp", "source_file"],
         [(generate_csv_row (okOracle.clock 1) okOracle.uV okOracle.uT).recorded_at,
          fmt2 (generate_csv_row (okOracle.clock 1) okOracle.uV okOracle.uT).voltage,
          fmt2 (generate_csv_row (okOracle.clock 1) okOracle.uV okOracle.uT).temp,
          "telemetry_" ++ fmtCompact (okOracle.clock 0) ++ ".csv"]] ∈
      (generate_and_insert [] okOracle).1 ∧
    ∃ fname r v t,
      (readConfig []).csv_out_dir ++ "/" ++
          ("telemetry_" ++ fmtCompact (okOracle.clock 0) ++ ".csv") =
        (readConfig []).csv_out_dir ++ "/" ++ fname ∧
      [["recorded_at", "voltage", "temp", "source_file"],
       [(generate_csv_row (okOracle.clock 1) okOracle.uV okOracle.uT).recorded_at,
        fmt2 (generate_csv_row (okOracle.clock 1) okOracle.uV okOracle.uT).voltage,
        fmt2 (generate_csv_row (okOracle.clock 1) okOracle.uV okOracle.uT).temp,
        "telemetry_" ++ fmtCompact (okOracle.clock 0) ++ ".csv"]] =
        [["recorded_at", "voltage", "temp", "source_file"],
         [r, v, t, fname]] ∧
      telemetryNamed fname :=
  ⟨by simp [clockOk, okOracle, clk0],
   by simp [generate_and_insert, okOracle],
   csv_file_shape [] okOracle (by simp [clockOk, okOracle, clk0]) _ _
     (by simp [generate_and_insert, okOracle])⟩

/-- C9: the filename timestamp and the reading's `recorded_at` come from
two distinct clock reads of the same iteration, the filename's first: on
every write-reaching run the written path embeds `fmtCompact` of clock read
0 while the row's `recorded_at` is `fmtHuman` of clock read 1 — and there is
a run, with the second read one second after the first, on which the two
fields denote different seconds. -/
theorem two_clock_reads (env : Env) (o : Oracle)
    (h1 : o.mkdirRes = none) (h2 : o.writeRes = none) :
    (∃ rest, (generate_and_insert env o).1 =
      .mkdirAttempt (readConfig env).csv_out_dir ::
      .fileWrite ((readConfig env).csv_out_dir ++ "/" ++
          ("telemetry_" ++ fmtCompact (o.clock 0) ++ ".csv"))
        [["recorded_at", "voltage", "temp", "source_file"],
         [fmtHuman (o.clock 1),
          fmt2 (generate_csv_row (o.clock 1) o.uV o.uT).voltage,
          fmt2 (generate_csv_row (o.clock 1) o.uV o.uT).temp,
          "telemetry_" ++ fmtCompact (o.clock 0) ++ ".csv"]] :: rest) ∧
    (∃ o2 : Oracle, o2.mkdirRes = none ∧ o2.writeRes = none ∧
      clockOk (o2.clock 0) ∧ clockOk (o2.clock 1) ∧
      (o2.clock 0).second + 1 = (o2.clock 1).second ∧
      fmtCompact (o2.clock 0) = "20260102_030405" ∧
      fmtHuman (o2.clock 1) = "2026-01-02 03:04:06") := by
  constructor
  · match h3 : o.connectRes with
    | some ex =>
      exact ⟨[.stdout ("✓ CSV file created: " ++ ((readConfig env).csv_out_dir ++
          "/" ++ ("telemetry_" ++ fmtCompact (o.clock 0) ++ ".csv"))),
        .stderr ex.dbLog],
        by simp [generate_and_insert, generate_csv_row, h1, h2, h3]⟩
    | none =>
      match h4 : o.execRes with
      | some ex =>
        exact ⟨[.stdout ("✓ CSV file created: " ++ ((readConfig env).csv_out_dir ++
            "/" ++ ("telemetry_" ++ fmtCompact (o.clock 0) ++ ".csv"))),
          .dbConnect (readConfig env).pg_host (readConfig env).pg_port
            (readConfig env).pg_user (readConfig env).pg_password
            (readConfig env).pg_database,
          .stderr ex.dbLog],
          by simp [generate_and_insert, generate_csv_row, h1, h2, h3, h4]⟩
      | none =>
        match h5 : o.commitRes with
        | some ex =>
          exact ⟨[.stdout ("✓ CSV file created: " ++ ((readConfig env).csv_out_dir ++
              "/" ++ ("telemetry_" ++ fmtCompact (o.clock 0) ++ ".csv"))),
            .dbConnect (readConfig env).pg_host (readConfig env).pg_port
              (readConfig env).pg_user (readConfig env).pg_password
              (readConfig env).pg_database,
            .dbExec insertQuery (fmtHuman (o.clock 1))
              (round2 (uniform (32/10) (126/10) o.uV))
              (round2 (uniform (-50) 80 o.uT))
              ("telemetry_" ++ fmtCompact (o.clock 0) ++ ".csv"),
            .stderr ex.dbLog],
            by simp [generate_and_insert, generate_csv_row, h1, h2, h3, h4, h5]⟩
        | none =>
          exact ⟨[.stdout ("✓ CSV file created: " ++ ((readConfig env).csv_out_dir ++
              "/" ++ ("telemetry_" ++ fmtCompact (o.clock 0) ++ ".csv"))),
            .dbConnect (readConfig env).pg_host (readConfig env).pg_port
              (readConfig env).pg_user (readConfig env).pg_password
              (readConfig env).pg_database,
            .dbExec insertQuery (fmtHuman (o.clock 1))
              (round2 (uniform (32/10) (126/10) o.uV))
              (round2 (uniform (-50) 80 o.uT))
              ("telemetry_" ++ fmtCompact (o.clock 0) ++ ".csv"),
            .dbCommit, .dbClose,
            .stdout ("✓ Data inserted into database: voltage=" ++
              fmt2 (round2 (uniform (32/10) (126/10) o.uV)) ++ "V, temp=" ++
              fmt2 (round2 (uniform (-50) 80 o.uT)) ++ "°C")],
            by simp [generate_and_insert, generate_csv_row, h1, h2, h3, h4, h5]⟩
  · refine ⟨{ okOracle with
      clock := fun i => if i = 0 then clk0 else ⟨2026, 1, 2, 3, 4, 6⟩ },
      rfl, rfl, ?_, ?_, ?_, ?_, ?_⟩
    · simp [clockOk, clk0]
    · simp [clockOk]
    · simp [clk0]
    · simp [fmtCompact, natStr, pad2, natDigits, clk0, Nat.digitChar]
    · simp [fmtHuman, natStr, pad2, natDigits, Nat.digitChar]

/-- Witness for C9 at a concrete environment and oracle. -/
theorem two_clock_reads_witness :
    okOracle.mkdirRes = none ∧ okOracle.writeRes = none ∧
    ∃ rest, (generate_and_insert [] okOracle).1 =
      .mkdirAttempt (readConfig []).csv_out_dir ::
      .fileWrite ((readConfig []).csv_out_dir ++ "/" ++
          ("telemetry_" ++ fmtCompact (okOracle.clock 0) ++ ".csv"))
        [["recorded_at", "voltage", "temp", "source_file"],
         [fmtHuman (okOracle.clock 1),
          fmt2 (generate_csv_row (okOracle.clock 1) okOracle.uV okOracle.uT).voltage,
          fmt2 (generate_csv_row (okOracle.clock 1) okOracle.uV okOracle.uT).temp,
          "telemetry_" ++ fmtCompact (okOracle.clock 0) ++ ".csv"]] :: rest :=
  ⟨rfl, rfl, (two_clock_reads [] okOracle rfl rfl).1⟩

/-- C1: if the CSV write raises, `generate_and_insert` logs the error to the
error stream and returns normally; the whole trace of the iteration is the
mkdir attempt and that single error line, so no database connection is
opened and no insertion is attempted. -/
theorem csv_write_failure_skips_db (env : Env) (o : Oracle) (e : String)
    (h1 : o.mkdirRes = none) (h2 : o.writeRes = some e) :
    generate_and_insert env o =
      ([.mkdirAttempt (readConfig env).csv_out_dir,
        .stderr ("✗ Error writing CSV: " ++ e)], none) ∧
    (∀ h p u pw d,
      Event.dbConnect h p u pw d ∉ (generate_and_insert env o).1) ∧
    (∀ q r v t s, Event.dbExec q r v t s ∉ (generate_and_insert env o).1) := by
  unfold generate_and_insert
  rw [h1, h2]
  refine ⟨rfl, ?_, ?_⟩ <;> intros <;> simp

/-- Witness for C1 at a concrete environment and oracle. -/
theorem csv_write_failure_skips_db_witness :
    ({ okOracle with writeRes := some "denied" } : Oracle).mkdirRes = none ∧
    ({ okOracle with writeRes := some "denied" } : Oracle).writeRes =
      some "denied" ∧
    generate_and_insert [] { okOracle with writeRes := some "denied" } =
      ([.mkdirAttempt "/data/csv",
        .stderr ("✗ Error writing CSV: " ++ "denied")], none) :=
  ⟨rfl, rfl,
    (csv_write_failure_skips_db [] { okOracle with writeRes := some "denied" }
      "denied" rfl rfl).1⟩

/-- C2: if the CSV write succeeds but the database step fails at any stage
(connection, query execution, or commit, by either a `psycopg2.Error` or a
generic exception), the written file is the iteration's only filesystem
effect, the corresponding error line is the only error output, no exception
leaves `generate_and_insert`, and the loop body still ends in the sleep. -/
theorem db_failure_preserves_csv (p : ℤ) (env : Env) (o : Oracle)
    (h1 : o.mkdirRes = none) (h2 : o.writeRes = none)
    (hfail : ¬(o.connectRes = none ∧ o.execRes = none ∧ o.commitRes = none)) :
    ∃ ex : Exn,
      filesWritten (generate_and_insert env o).1 =
        [((readConfig env).csv_out_dir ++ "/" ++
            ("telemetry_" ++ fmtCompact (o.clock 0) ++ ".csv"),
          [["recorded_at", "voltage", "temp", "source_file"],
           [(generate_csv_row (o.clock 1) o.uV o.uT).recorded_at,
            fmt2 (generate_csv_row (o.clock 1) o.uV o.uT).voltage,
            fmt2 (generate_csv_row (o.clock 1) o.uV o.uT).temp,
            "telemetry_" ++ fmtCompact (o.clock 0) ++ ".csv"]])] ∧
      stderrs (generate_and_insert env o).1 = [ex.dbLog] ∧
      (generate_and_insert env o).2 = none ∧
      loopIter p env o = ((generate_and_insert env o).1 ++ [.sleep p], none) := by
  match hc : o.connectRes with
  | some ex =>
    exact ⟨ex, by
      simp [filesWritten, stderrs, generate_and_insert, loopIter, h1, h2, hc]⟩
  | none =>
    match he : o.execRes with
    | some ex =>
      exact ⟨ex, by
        simp [filesWritten, stderrs, generate_and_insert, loopIter, h1, h2, hc, he]⟩
    | none =>
      match hm : o.commitRes with
      | some ex =>
        exact ⟨ex, by
          simp [filesWritten, stderrs, generate_and_insert, loopIter, h1, h2, hc,
            he, hm]⟩
      | none => exact absurd ⟨hc, he, hm⟩ hfail

/-- Witness for C2 at a concrete environment and oracle (unreachable
database connection). -/
theorem db_failure_preserves_csv_witness :
    ({ okOracle with connectRes := some (.pgError "no route") } : Oracle).mkdirRes
      = none ∧
    ({ okOracle with connectRes := some (.pgError "no route") } : Oracle).writeRes
      = none ∧
    ¬(({ okOracle with connectRes := some (.pgError "no route") } : Oracle).connectRes = none ∧
      ({ okOracle with connectRes := some (.pgError "no route") } : Oracle).execRes = none ∧
      ({ okOracle with connectRes := some (.pgError "no route") } : Oracle).commitRes = none) ∧
    ∃ ex : Exn,
      filesWritten (generate_and_insert []
          { okOracle with connectRes := some (.pgError "no route") }).1 =
        [((readConfig []).csv_out_dir ++ "/" ++
            ("telemetry_" ++ fmtCompact (okOracle.clock 0) ++ ".csv"),
          [["recorded_at", "voltage", "temp", "source_file"],
           [(generate_csv_row (okOracle.clock 1) okOracle.uV okOracle.uT).recorded_at,
            fmt2 (generate_csv_row (okOracle.clock 1) okOracle.uV okOracle.uT).voltage,
            fmt2 (generate_csv_row (okOracle.clock 1) okOracle.uV okOracle.uT).temp,
            "telemetry_" ++ fmtCompact (okOracle.clock 0) ++ ".csv"]])] ∧
      stderrs (generate_and_insert []
          { okOracle with connectRes := some (.pgError "no route") }).1 = [ex.dbLog] ∧
      (generate_and_insert []
          { okOracle with connectRes := some (.pgError "no route") }).2 = none ∧
      loopIter 300 [] { okOracle with connectRes := some (.pgError "no route") } =
        ((generate_and_insert []
            { okOracle with connectRes := some (.pgError "no route") }).1 ++
          [.sleep 300], none) :=
  ⟨rfl, rfl, by simp,
    db_failure_preserves_csv 300 []
      { okOracle with connectRes := some (.pgError "no route") } rfl rfl (by simp)⟩

/-- C5: every exception escaping the generate-write-insert sequence is
caught by the outer loop, logged as a "Legacy error", and the iteration
still ends in the sleep, so the loop keeps running: `mainRun` yields a trace
for every horizon `n` exactly when startup parsing of `GEN_PERIOD_SEC`
succeeds, and no iteration of the loop body propagates an exception. -/
theorem main_loop_never_dies (env0 : Env) (envSeq : Nat → Env)
    (oSeq : Nat → Oracle) :
    ((mainStartup env0).isSome →
      ∀ n, ∃ tr, mainRun env0 envSeq oSeq n = some tr) ∧
    (mainStartup env0 = none → ∀ n, mainRun env0 envSeq oSeq n = none) ∧
    (∀ p env o, (loopIter p env o).2 = none ∧
      ∃ ex : Option Exn, (loopIter p env o).1 =
        (generate_and_insert env o).1 ++
          (match ex with
           | some e => [.stderr ("✗ Legacy error: " ++ e.msg)]
           | none => []) ++ [.sleep p] ∧
        ex = (generate_and_insert env o).2) := by
  refine ⟨?_, ?_, ?_⟩
  · intro hs n
    match hp : mainStartup env0 with
    | some p =>
      exact ⟨(List.range n).flatMap (fun i => (loopIter p (envSeq i) (oSeq i)).1),
        by simp [mainRun, hp]⟩
    | none => simp [hp] at hs
  · intro hn n
    simp [mainRun, hn]
  · intro p env o
    refine ⟨?_, (generate_and_insert env o).2, ?_, rfl⟩ <;>
      match hx : (generate_and_insert env o).2 with
      | some e => simp [loopIter, hx]
      | none => simp [loopIter, hx]

/-- Witness for C5 at a concrete startup environment (empty: the default
"300" parses). -/
theorem main_loop_never_dies_witness :
    (mainStartup []).isSome ∧
    ∃ tr, mainRun [] (fun _ => []) (fun _ => okOracle) 2 = some tr :=
  ⟨by decide,
    (main_loop_never_dies [] (fun _ => []) (fun _ => okOracle)).1 (by decide) 2⟩

/-- The statement of C6 as the claim makes it: every configuration value,
the generation period included, is re-read fresh from the environment of the
iteration in which it is used — so iteration `i` of a run would sleep for
the period parsed from `envSeq i`. -/
def freshPeriodClaim : Prop :=
  ∀ (env0 : Env) (envSeq : Nat → Env) (oSeq : Nat → Oracle) (n : Nat)
    (tr : List Event), mainRun env0 envSeq oSeq n = some tr →
    ∀ i, i < n → ∀ p : ℤ,
      parseIntPy (get_env (envSeq i) "GEN_PERIOD_SEC" "300") = some p →
      (sleeps tr).get? i = some p

/-- C6 counterexample: with a startup environment that defaults the period
to 300 and an iteration-0 environment that sets `GEN_PERIOD_SEC=1`, the
first iteration still sleeps 300 seconds — `main` parses the period once
before the loop and never re-reads it. -/
theorem period_not_reread_counterexample : ¬freshPeriodClaim := by
  intro h
  have hm : mainRun [] (fun _ => [("GEN_PERIOD_SEC", "1")])
      (fun _ => okOracle) 1 =
      some ((loopIter 300 [("GEN_PERIOD_SEC", "1")] okOracle).1) := by
    simp [mainRun, show mainStartup [] = some 300 from by decide,
      show List.range 1 = [0] from rfl]
  have h300 := h [] (fun _ => [("GEN_PERIOD_SEC", "1")]) (fun _ => okOracle) 1
    ((loopIter 300 [("GEN_PERIOD_SEC", "1")] okOracle).1) hm
    0 (by omega) 1 (by decide)
  rw [show (sleeps (loopIter 300 [("GEN_PERIOD_SEC", "1")] okOracle).1).get? 0
      = some 300 from by decide] at h300
  exact absurd (Option.some.inj h300) (by decide)

/-- C6 as amended: the output directory and the five database connection
parameters are re-read fresh from the current iteration's environment on
every iteration, but the generation period is parsed once at startup and
cached — every sleep of a run uses the startup value. -/
theorem config_fresh_except_period (env0 : Env) (envSeq : Nat → Env)
    (oSeq : Nat → Oracle) (p : ℤ) (n : Nat)
    (hp : mainStartup env0 = some p) :
    mainRun env0 envSeq oSeq n =
      some ((List.range n).flatMap
        (fun i => (loopIter p (envSeq i) (oSeq i)).1)) ∧
    (∀ env o, ((loopIter p env o).1).head? =
      some (.mkdirAttempt (get_env env "CSV_OUT_DIR" "/data/csv"))) ∧
    (∀ env o hh pt u pw d,
      Event.dbConnect hh pt u pw d ∈ (loopIter p env o).1 →
      hh = get_env env "PGHOST" "db" ∧ pt = get_env env "PGPORT" "5432" ∧
      u = get_env env "PGUSER" "monouser" ∧
      pw = get_env env "PGPASSWORD" "monopass" ∧
      d = get_env env "PGDATABASE" "monolith") ∧
    (∀ env o, sleeps (loopIter p env o).1 = [p]) := by
  refine ⟨by simp [mainRun, hp], ?_, ?_, ?_⟩
  · intro env o
    match h1 : o.mkdirRes with
    | some e => simp [loopIter, generate_and_insert, readConfig, h1]
    | none =>
      match h2 : o.writeRes with
      | some e => simp [loopIter, generate_and_insert, readConfig, h1, h2]
      | none =>
        match h3 : o.connectRes with
        | some ex => simp [loopIter, generate_and_insert, readConfig, h1, h2, h3]
        | none =>
          match h4 : o.execRes with
          | some ex =>
            simp [loopIter, generate_and_insert, readConfig, h1, h2, h3, h4]
          | none =>
            match h5 : o.commitRes with
            | some ex =>
              simp [loopIter, generate_and_insert, readConfig, h1, h2, h3, h4, h5]
            | none =>
              simp [loopIter, generate_and_insert, readConfig, h1, h2, h3, h4, h5]
  · intro env o hh pt u pw d hmem
    match h1 : o.mkdirRes with
    | some e => simp [loopIter, generate_and_insert, h1] at hmem
    | none =>
      match h2 : o.writeRes with
      | some e => simp [loopIter, generate_and_insert, h1, h2] at hmem
      | none =>
        match h3 : o.connectRes with
        | some ex => simp [loopIter, generate_and_insert, h1, h2, h3] at hmem
        | none =>
          match h4 : o.execRes with
          | some ex =>
            simp [loopIter, generate_and_insert, h1, h2, h3, h4] at hmem
            simpa [readConfig] using hmem
          | none =>
            match h5 : o.commitRes with
            | some ex =>
              simp [loopIter, generate_and_insert, h1, h2, h3, h4, h5] at hmem
              simpa [readConfig] using hmem
            | none =>
              simp [loopIter, generate_and_insert, h1, h2, h3, h4, h5] at hmem
              simpa [readConfig] using hmem
  · intro env o
    match h1 : o.mkdirRes with
    | some e => simp [loopIter, generate_and_insert, sleeps, h1, Exn.msg]
    | none =>
      match h2 : o.writeRes with
      | some e => simp [loopIter, generate_and_insert, sleeps, h1, h2]
      | none =>
        match h3 : o.connectRes with
        | some ex => simp [loopIter, generate_and_insert, sleeps, h1, h2, h3]
        | none =>
          match h4 : o.execRes with
          | some ex =>
            simp [loopIter, generate_and_insert, sleeps, h1, h2, h3, h4]
          | none =>
            match h5 : o.commitRes with
            | some ex =>
              simp [loopIter, generate_and_insert, sleeps, h1, h2, h3, h4, h5]
            | none =>
              simp [loopIter, generate_and_insert, sleeps, h1, h2, h3, h4, h5]

/-- Witness for the amended C6 at a concrete startup environment. -/
theorem config_fresh_except_period_witness :
    mainStartup [] = some 300 ∧
    mainRun [] (fun _ => [("PGHOST", "other")]) (fun _ => okOracle) 1 =
      some ((List.range 1).flatMap
        (fun i => (loopIter 300 [("PGHOST", "other")] okOracle).1)) :=
  ⟨by decide,
    (config_fresh_except_period [] (fun _ => [("PGHOST", "other")])
      (fun _ => okOracle) 300 1 (by decide)).1⟩

/-- C10: if `mkdir` of the output directory raises, the exception escapes
`generate_and_insert` (the call stands outside the CSV `try` block); the
outer loop's generic handler logs it as a "Legacy error" (the only error
line — in particular not the CSV-write branch's message), and the iteration
neither writes a file nor touches the database. -/
theorem mkdir_failure_escapes (p : ℤ) (env : Env) (o : Oracle) (e : String)
    (h : o.mkdirRes = some e) :
    generate_and_insert env o =
      ([.mkdirAttempt (readConfig env).csv_out_dir], some (.generic e)) ∧
    loopIter p env o =
      ([.mkdirAttempt (readConfig env).csv_out_dir,
        .stderr ("✗ Legacy error: " ++ e), .sleep p], none) ∧
    filesWritten (loopIter p env o).1 = [] ∧
    dbEvents (loopIter p env o).1 = [] ∧
    stderrs (loopIter p env o).1 = ["✗ Legacy error: " ++ e] := by
  refine ⟨?_, ?_, ?_, ?_, ?_⟩ <;>
    simp [generate_and_insert, loopIter, h, filesWritten, dbEvents, stderrs,
      Exn.msg]

/-- C7: on every iteration that reaches the database step (directory
created, CSV written), the database interaction is exactly: open a fresh
connection with the configured parameters, execute the single parameterized
INSERT into `telemetry_legacy` carrying all four reading fields, commit,
and close — in that order, once each. -/
theorem db_success_trace (env : Env) (o : Oracle)
    (h1 : o.mkdirRes = none) (h2 : o.writeRes = none)
    (h3 : o.connectRes = none) (h4 : o.execRes = none)
    (h5 : o.commitRes = none) :
    dbEvents (generate_and_insert env o).1 =
      [.dbConnect (readConfig env).pg_host (readConfig env).pg_port
        (readConfig env).pg_user (readConfig env).pg_password
        (readConfig env).pg_database,
       .dbExec insertQuery
         (generate_csv_row (o.clock 1) o.uV o.uT).recorded_at
         (generate_csv_row (o.clock 1) o.uV o.uT).voltage
         (generate_csv_row (o.clock 1) o.uV o.uT).temp
         ("telemetry_" ++ fmtCompact (o.clock 0) ++ ".csv"),
       .dbCommit, .dbClose] ∧
    (generate_and_insert env o).2 = none := by
  constructor <;> simp [generate_and_insert, dbEvents, h1, h2, h3, h4, h5]

/-- Witness for C7 at a concrete environment and oracle. -/
theorem db_success_trace_witness :
    okOracle.mkdirRes = none ∧ okOracle.writeRes = none ∧
    okOracle.connectRes = none ∧ okOracle.execRes = none ∧
    okOracle.commitRes = none ∧
    dbEvents (generate_and_insert [] okOracle).1 =
      [.dbConnect "db" "5432" "monouser" "monopass" "monolith",
       .dbExec insertQuery
         (generate_csv_row (okOracle.clock 1) okOracle.uV okOracle.uT).recorded_at
         (generate_csv_row (okOracle.clock 1) okOracle.uV okOracle.uT).voltage
         (generate_csv_row (okOracle.clock 1) okOracle.uV okOracle.uT).temp
         ("telemetry_" ++ fmtCompact (okOracle.clock 0) ++ ".csv"),
       .dbCommit, .dbClose] :=
  ⟨rfl, rfl, rfl, rfl, rfl,
    (db_success_trace [] okOracle rfl rfl rfl rfl rfl).1⟩

/-- C8: `conn.close()` runs only on the all-success path: the trace contains
a `dbClose` exactly when every step of the iteration succeeds, and when the
insert or the commit raises after the connection was opened, the connection
stays open while the error is logged as the last event and
`generate_and_insert` returns normally. -/
theorem close_only_on_success (env : Env) (o : Oracle) :
    (Event.dbClose ∈ (generate_and_insert env o).1 ↔
      o.mkdirRes = none ∧ o.writeRes = none ∧ o.connectRes = none ∧
      o.execRes = none ∧ o.commitRes = none) ∧
    (∀ ex : Exn, o.mkdirRes = none → o.writeRes = none → o.connectRes = none →
      (o.execRes = some ex ∨ (o.execRes = none ∧ o.commitRes = some ex)) →
      Event.dbClose ∉ (generate_and_insert env o).1 ∧
      (∃ h p u pw d,
        Event.dbConnect h p u pw d ∈ (generate_and_insert env o).1) ∧
      (generate_and_insert env o).1.getLast? = some (.stderr ex.dbLog) ∧
      (generate_and_insert env o).2 = none) := by
  constructor
  · match h1 : o.mkdirRes with
    | some e => simp [generate_and_insert, h1]
    | none =>
      match h2 : o.writeRes with
      | some e => simp [generate_and_insert, h1, h2]
      | none =>
        match h3 : o.connectRes with
        | some ex => simp [generate_and_insert, h1, h2, h3]
        | none =>
          match h4 : o.execRes with
          | some ex => simp [generate_and_insert, h1, h2, h3, h4]
          | none =>
            match h5 : o.commitRes with
            | some ex => simp [generate_and_insert, h1, h2, h3, h4, h5]
            | none => simp [generate_and_insert, h1, h2, h3, h4, h5]
  · rintro ex h1 h2 h3 (h4 | ⟨h4, h5⟩)
    · refine ⟨?_, ⟨(readConfig env).pg_host, (readConfig env).pg_port,
        (readConfig env).pg_user, (readConfig env).pg_password,
        (readConfig env).pg_database, ?_⟩, ?_, ?_⟩ <;>
        simp [generate_and_insert, h1, h2, h3, h4]
    · refine ⟨?_, ⟨(readConfig env).pg_host, (readConfig env).pg_port,
        (readConfig env).pg_user, (readConfig env).pg_password,
        (readConfig env).pg_database, ?_⟩, ?_, ?_⟩ <;>
        simp [generate_and_insert, h1, h2, h3, h4, h5]

/-- Witness for C8 at a concrete environment and oracle (commit raises). -/
theorem close_only_on_success_witness :
    (Event.dbClose ∈
        (generate_and_insert []
          { okOracle with commitRes := some (.pgError "deadlock") }).1 ↔
      ({ okOracle with commitRes := some (.pgError "deadlock") } : Oracle).mkdirRes = none ∧
      ({ okOracle with commitRes := some (.pgError "deadlock") } : Oracle).writeRes = none ∧
      ({ okOracle with commitRes := some (.pgError "deadlock") } : Oracle).connectRes = none ∧
      ({ okOracle with commitRes := some (.pgError "deadlock") } : Oracle).execRes = none ∧
      ({ okOracle with commitRes := some (.pgError "deadlock") } : Oracle).commitRes = none) ∧
    Event.dbClose ∉
      (generate_and_insert []
        { okOracle with commitRes := some (.pgError "deadlock") }).1 :=
  ⟨(close_only_on_success []
      { okOracle with commitRes := some (.pgError "deadlock") }).1,
   ((close_only_on_success []
      { okOracle with commitRes := some (.pgError "deadlock") }).2
      (.pgError "deadlock") rfl rfl rfl (Or.inr ⟨rfl, rfl⟩)).1⟩

/-- Witness for C10 at a concrete environment and oracle. -/
theorem mkdir_failure_escapes_witness :
    ({ okOracle with mkdirRes := some "read-only fs" } : Oracle).mkdirRes =
      some "read-only fs" ∧
    generate_and_insert [] { okOracle with mkdirRes := some "read-only fs" } =
      ([.mkdirAttempt (readConfig []).csv_out_dir],
        some (.generic "read-only fs")) :=
  ⟨rfl,
    (mkdir_failure_escapes 300 []
      { okOracle with mkdirRes := some "read-only fs" } "read-only fs" rfl).1⟩

end Legacy
